import Mathlib

/-!
Verification of the content-generation pipeline: data model, comparison
scorer, price block, template engine, workflow error gate, product
validation, and the FAQ answering step.

Modelling conventions (shallow embedding of the Python source):
* Python `float` values (prices, derived costs) are modelled as `ℚ`;
  floating-point representation error is out of scope.
* Python `str` operations (`lower`, substring `in`, `strip`) are modelled
  on the underlying character list (`String.data`); this matches Python on
  the ASCII data the system handles.
* Python `int(x)` truncates toward zero; `pyTrunc` mirrors this.
* Python `f"{x:+.0f}"` / `"{x:.2f}"` round half to even; `pyRound0`
  mirrors this (the `-0` display of float signed zero is not modelled).
* `dict` results of the logic blocks become structures whose fields carry
  the dict's keys; keys present only in some dimension dicts (`difference`,
  `common_ingredients`) become `Option` fields defaulting to `none`.
-/

/-- Python `str.lower`, character-wise (ASCII). -/
def pyLower (s : String) : String := ⟨s.data.map Char.toLower⟩

/-- Substring test on character lists: does `hay` contain `needle`
as a contiguous run? (Python `needle in hay`.) -/
def listContains (needle : List Char) : List Char → Bool
  | [] => needle.isEmpty
  | c :: t => needle.isPrefixOf (c :: t) || listContains needle t

/-- Python `needle in hay` on strings. -/
def pyIn (needle hay : String) : Bool := listContains needle.data hay.data

/-- Python `str.strip()`: drop leading and trailing whitespace. -/
def pyStrip (s : String) : String :=
  ⟨((s.data.dropWhile Char.isWhitespace).reverse.dropWhile Char.isWhitespace).reverse⟩

/-- Python `int(q)` on a real value: truncation toward zero. -/
def pyTrunc (q : ℚ) : ℤ := if q < 0 then ⌈q⌉ else ⌊q⌋

/-- Python `format(q, '.0f')` rounding: round half to even. -/
def pyRound0 (q : ℚ) : ℤ :=
  let f := ⌊q⌋
  if q - f < 1/2 then f
  else if 1/2 < q - f then f + 1
  else if f % 2 = 0 then f else f + 1

/-- Python `str(x)` of a numeric value, as embedded in f-strings.
(The repository only ever feeds it integral prices; the `.0` suffix Python
prints for integral floats is not modelled.) -/
def ratStr (q : ℚ) : String := toString q

/-- Python `format(q, '+.0f')`: zero decimals, sign always shown. -/
def pctStr (q : ℚ) : String :=
  let r := pyRound0 q
  if 0 ≤ r then "+" ++ toString r else toString r

/-- Python `format(q, '.2f')`: two decimals, half-even rounding. -/
def fmtFixed2 (q : ℚ) : String :=
  let c := pyRound0 (q * 100)
  let n := c.natAbs
  (if c < 0 then "-" else "") ++ toString (n / 100) ++ "." ++
    (if n % 100 < 10 then "0" else "") ++ toString (n % 100)

/-- `src/models/product.py` `ProductModel`: the validated product record.
`price` carries the pydantic constraint `gt=0`; construction goes through
`ProductModel.model_validate` below. -/
structure ProductModel where
  name : String
  concentration : String
  skin_types : List String
  ingredients : List String
  benefits : List String
  usage : String
  side_effects : String
  price : ℚ
  deriving DecidableEq

/-- One row of the comparison matrix
(`src/logic_blocks/comparison_block.py`): a dict with `dimension`,
`product_a`, `product_b`, `winner`, `verdict`, plus per-dimension extra
keys (`difference` for price, `common_ingredients` for ingredients). -/
structure DimResult where
  dimension : String
  product_a : String
  product_b : String
  winner : String
  verdict : String
  difference : Option String := none
  common_ingredients : Option Nat := none
  deriving DecidableEq

/-- The `abs(int(price_diff))` rupee figure embedded in the price row's
`difference` and `verdict` strings. -/
def reportedAbsDiff (a b : ProductModel) : ℤ := |pyTrunc (a.price - b.price)|

/-- `_compare_price` of `comparison_block.py`. -/
def compare_price (a b : ProductModel) : DimResult :=
  let price_diff : ℚ := a.price - b.price
  let price_diff_percent : ℚ := if 0 < b.price then price_diff / b.price * 100 else 0
  let wv : String × String :=
    if |price_diff| < 100 then ("tie", "Similarly priced")
    else if price_diff < 0 then
      ("product_b", "₹" ++ toString (reportedAbsDiff a b) ++ " cheaper")
    else
      ("product_a", "₹" ++ toString (pyTrunc price_diff) ++ " more affordable")
  { dimension := "Price"
    product_a := "₹" ++ ratStr a.price
    product_b := "₹" ++ ratStr b.price
    difference := some ("₹" ++ toString (reportedAbsDiff a b) ++ " (" ++
      pctStr price_diff_percent ++ "%)")
    winner := wv.1
    verdict := wv.2 }

/-- `_compare_concentration` of `comparison_block.py`. -/
def compare_concentration (a b : ProductModel) : DimResult :=
  { dimension := "Concentration"
    product_a := a.concentration
    product_b := b.concentration
    winner := "contextual"
    verdict := "Compare based on your skin's needs" }

/-- `_compare_skin_types` of `comparison_block.py`. Python `set(...)`
cardinality is the number of distinct elements; the joined display strings
use first-occurrence order (Python set iteration order is unspecified). -/
def compare_skin_types (a b : ProductModel) : DimResult :=
  let a_count := a.skin_types.dedup.length
  let b_count := b.skin_types.dedup.length
  let wv : String × String :=
    if b_count < a_count then
      ("product_a", "Suitable for " ++ toString a_count ++ " skin types")
    else if a_count < b_count then
      ("product_b", "Suitable for " ++ toString b_count ++ " skin types")
    else
      ("tie", "Both suitable for " ++ toString a_count ++ " skin types")
  { dimension := "Skin Type Coverage"
    product_a := String.intercalate ", " a.skin_types.dedup
    product_b := String.intercalate ", " b.skin_types.dedup
    winner := wv.1
    verdict := wv.2 }

/-- `_compare_ingredients` of `comparison_block.py`: case-insensitive set
intersection; always `contextual`. -/
def compare_ingredients (a b : ProductModel) : DimResult :=
  let a_ings := (a.ingredients.map pyLower).dedup
  let b_ings := (b.ingredients.map pyLower).dedup
  let common := a_ings.filter (fun i => b_ings.contains i)
  { dimension := "Ingredients"
    product_a := toString a.ingredients.length ++ " ingredients"
    product_b := toString b.ingredients.length ++ " ingredients"
    common_ingredients := some common.length
    winner := "contextual"
    verdict := toString common.length ++ " shared ingredients" }

/-- `_compare_benefits` of `comparison_block.py`: raw list lengths. -/
def compare_benefits (a b : ProductModel) : DimResult :=
  let a_count := a.benefits.length
  let b_count := b.benefits.length
  let wv : String × String :=
    if b_count < a_count then
      ("product_a", toString a_count ++ " claimed benefits")
    else if a_count < b_count then
      ("product_b", toString b_count ++ " claimed benefits")
    else
      ("tie", "Both offer " ++ toString a_count ++ " benefits")
  { dimension := "Benefits"
    product_a := toString a_count ++ " benefits"
    product_b := toString b_count ++ " benefits"
    winner := wv.1
    verdict := wv.2 }

/-- `_compare_safety` of `comparison_block.py`: a side "wins" when its
side-effect text contains `"mild"` (lower-cased) and the other's does not. -/
def compare_safety (a b : ProductModel) : DimResult :=
  let a_safe := pyIn "mild" (pyLower a.side_effects)
  let b_safe := pyIn "mild" (pyLower b.side_effects)
  let wv : String × String :=
    if a_safe && !b_safe then ("product_a", "Milder side effect profile")
    else if b_safe && !a_safe then ("product_b", "Milder side effect profile")
    else ("tie", "Similar safety profiles")
  { dimension := "Safety"
    product_a := a.side_effects
    product_b := b.side_effects
    winner := wv.1
    verdict := wv.2 }

/-- The scores dict of `_calculate_scores`. -/
structure Scores where
  product_a_wins : Nat
  product_b_wins : Nat
  ties : Nat
  total_dimensions : Nat
  deriving DecidableEq

/-- `_calculate_scores` of `comparison_block.py`: tally rows whose winner
tag is exactly `product_a` / `product_b`; `tie` and `contextual` go to
`ties`. -/
def calculate_scores (comparison_matrix : List DimResult) : Scores :=
  { product_a_wins := comparison_matrix.countP (fun item => item.winner == "product_a")
    product_b_wins := comparison_matrix.countP (fun item => item.winner == "product_b")
    ties := comparison_matrix.countP
      (fun item => item.winner == "tie" || item.winner == "contextual")
    total_dimensions := comparison_matrix.length }

/-- `_generate_comparison_summary` of `comparison_block.py`. -/
def generate_comparison_summary (a b : ProductModel) (scores : Scores) : String :=
  if scores.product_b_wins < scores.product_a_wins then
    a.name ++ " leads in " ++ toString scores.product_a_wins ++ " out of " ++
      toString scores.total_dimensions ++ " dimensions"
  else if scores.product_a_wins < scores.product_b_wins then
    b.name ++ " leads in " ++ toString scores.product_b_wins ++ " out of " ++
      toString scores.total_dimensions ++ " dimensions"
  else
    "Both products are competitive across " ++ toString scores.total_dimensions ++
      " key dimensions"

/-- The comparison block's result dict. -/
structure ComparisonBlock where
  matrix : List DimResult
  scores : Scores
  summary : String
  deriving DecidableEq

/-- `generate_comparison_block` of `comparison_block.py`: the six fixed
dimensions in source order, their tally, and a summary sentence. -/
def generate_comparison_block (product_a product_b : ProductModel) : ComparisonBlock :=
  let comparison_matrix :=
    [compare_price product_a product_b,
     compare_concentration product_a product_b,
     compare_skin_types product_a product_b,
     compare_ingredients product_a product_b,
     compare_benefits product_a product_b,
     compare_safety product_a product_b]
  let scores := calculate_scores comparison_matrix
  { matrix := comparison_matrix
    scores := scores
    summary := generate_comparison_summary product_a product_b scores }

/-- The price block's result dict (`src/logic_blocks/price_block.py`). -/
structure PriceBlock where
  title : String
  price : String
  price_numeric : ℚ
  bottle_size_ml : Nat
  positioning : String
  positioning_description : String
  cost_per_ml : String
  cost_per_use : String
  estimated_days_supply : ℤ
  value_highlights : List String
  investment_statement : String
  deriving DecidableEq

/-- `_generate_value_highlights` of `price_block.py`. -/
def generate_value_highlights (product : ProductModel)
    (cost_per_use days_supply : ℚ) : List String :=
  (if cost_per_use < 5 then
      ["Less than ₹" ++ toString (pyTrunc cost_per_use + 1) ++ " per application"]
    else
      ["Approximately ₹" ++ toString (pyRound0 cost_per_use) ++ " per use"]) ++
  (if 60 ≤ days_supply then
      ["Over " ++ toString (pyTrunc (days_supply / 30)) ++ " months supply with daily use"]
    else
      ["Approximately " ++ toString (pyTrunc days_supply) ++ " days of use"]) ++
  (if product.concentration ≠ "" then
      ["Effective " ++ product.concentration ++ " formulation"]
    else []) ++
  (if ["Vitamin C", "Hyaluronic Acid", "Retinol", "Niacinamide"].any
        (fun ing => product.ingredients.contains ing) then
      ["Contains premium, research-backed ingredients"]
    else []) ++
  (if 2 ≤ product.benefits.length then
      ["Delivers " ++ toString product.benefits.length ++ " benefits in one product"]
    else [])

/-- `_generate_investment_statement` of `price_block.py`. -/
def generate_investment_statement (price days_supply : ℚ) : String :=
  let daily_cost := price / days_supply
  if daily_cost < 15 then
    "An investment of just ₹" ++ toString (pyRound0 daily_cost) ++
      " per day for healthier, more radiant skin"
  else if daily_cost < 30 then
    "Premium skincare at ₹" ++ toString (pyRound0 daily_cost) ++
      " daily - less than your morning coffee"
  else
    "A professional-grade treatment for ₹" ++ toString (pyRound0 daily_cost) ++ " per day"

/-- `generate_price_block` of `price_block.py`: cost per ml / per use from a
30 ml bottle and 2.5 drops of 0.05 ml, supply estimate, four positioning
tiers at 500 / 1000 / 2000, value highlights, investment statement. -/
def generate_price_block (product : ProductModel) (bottle_size_ml : Nat := 30) : PriceBlock :=
  let price := product.price
  let cost_per_ml := price / (bottle_size_ml : ℚ)
  let drops_per_use : ℚ := 2.5
  let ml_per_use := drops_per_use * 0.05
  let cost_per_use := ml_per_use * cost_per_ml
  let uses_per_day : ℚ :=
    if pyIn "twice" (pyLower product.usage) ||
        pyIn "morning and evening" (pyLower product.usage) then 2 else 1
  let total_uses := (bottle_size_ml : ℚ) / ml_per_use
  let days_supply := total_uses / uses_per_day
  let pos : String × String :=
    if price < 500 then ("Budget-Friendly", "Affordable luxury for everyday skincare")
    else if price < 1000 then ("Mid-Range", "Premium quality at accessible pricing")
    else if price < 2000 then ("Premium", "High-end formulation with proven ingredients")
    else ("Luxury", "Professional-grade investment in skin health")
  { title := "Pricing & Value"
    price := "₹" ++ ratStr price
    price_numeric := price
    bottle_size_ml := bottle_size_ml
    positioning := pos.1
    positioning_description := pos.2
    cost_per_ml := "₹" ++ fmtFixed2 cost_per_ml
    cost_per_use := "₹" ++ fmtFixed2 cost_per_use
    estimated_days_supply := pyTrunc days_supply
    value_highlights := generate_value_highlights product cost_per_use days_supply
    investment_statement := generate_investment_statement price days_supply }

/-- `src/models/templates.py` `TemplateSection`. `format_rules` is a
free-form mapping the engine never interprets; modelled as string pairs. -/
structure TemplateSection where
  section_name : String
  required_blocks : List String := []
  optional_blocks : List String := []
  llm_enhance : Bool := false
  format_rules : List (String × String) := []

/-- One entry of a rendered section's `blocks` list
(`src/templates/template_engine.py`). The block content type is a
parameter: the engine treats block results opaquely. -/
structure RenderedBlock (α : Type) where
  name : String
  content : α
  required : Bool
  deriving DecidableEq

/-- `render_section`'s result dict. -/
structure RenderedSection (α : Type) where
  section_name : String
  blocks : List (RenderedBlock α)
  deriving DecidableEq

/-- The required-block loop of `TemplateEngine.render_section`: names not
in the registry are skipped (`if block_name in self.registered_blocks`);
a registered block is invoked and its exception (`Except.error`)
propagates, aborting the section. -/
def renderRequired {α : Type} (registry : String → Option (ProductModel → Except String α))
    (names : List String) (product : ProductModel) :
    Except String (List (RenderedBlock α)) :=
  match names with
  | [] => .ok []
  | n :: rest =>
    match registry n with
    | none => renderRequired registry rest product
    | some block_func =>
      match block_func product with
      | .error e => .error e
      | .ok c =>
        match renderRequired registry rest product with
        | .error e => .error e
        | .ok bs => .ok ({ name := n, content := c, required := true } :: bs)

/-- The optional-block loop of `TemplateEngine.render_section`: names not
in the registry are skipped; a registered block runs in a guarded scope and
a failing block is logged and omitted. -/
def renderOptional {α : Type} (registry : String → Option (ProductModel → Except String α))
    (names : List String) (product : ProductModel) : List (RenderedBlock α) :=
  match names with
  | [] => []
  | n :: rest =>
    match registry n with
    | none => renderOptional registry rest product
    | some block_func =>
      match block_func product with
      | .error _ => renderOptional registry rest product
      | .ok c => { name := n, content := c, required := false } ::
          renderOptional registry rest product

/-- `TemplateEngine.render_section`: required blocks first (exceptions
propagate), then optional blocks (exceptions absorbed), collected into
`{section_name, blocks}`. The registry is the engine's
`registered_blocks` dict. -/
def render_section {α : Type} (registry : String → Option (ProductModel → Except String α))
    (s : TemplateSection) (product : ProductModel) :
    Except String (RenderedSection α) :=
  match renderRequired registry s.required_blocks product with
  | .error e => .error e
  | .ok req =>
    .ok { section_name := s.section_name
          blocks := req ++ renderOptional registry s.optional_blocks product }

/-- `src/models/question.py` `QuestionModel`. The source constrains
`category` to six literals and `question` to ≥10 chars; neither constraint
is needed by the claims below. -/
structure QuestionModel where
  category : String
  question : String
  deriving DecidableEq

/-- `src/models/question.py` `QuestionAnswerModel`. -/
structure QuestionAnswerModel where
  question : String
  answer : String
  category : String
  deriving DecidableEq

/-- `src/models/pages.py` `FAQPageModel`; the generation timestamp is
abstracted to a number. -/
structure FAQPageModel where
  page_type : String := "faq"
  product_name : String
  faqs : List QuestionAnswerModel
  generated_at : Nat := 0
  deriving DecidableEq

/-- `src/models/pages.py` `ProductPageModel`; the section dicts are opaque
JSON-like payloads, abstracted to string pairs. -/
structure ProductPageModel where
  page_type : String := "product"
  product_name : String
  hero_section : List (String × String) := []
  benefits_section : List (String × String) := []
  usage_section : List (String × String) := []
  ingredients_section : List (String × String) := []
  safety_section : List (String × String) := []
  price_section : List (String × String) := []
  generated_at : Nat := 0
  deriving DecidableEq

/-- `src/models/pages.py` `ComparisonPageModel`. -/
structure ComparisonPageModel where
  page_type : String := "comparison"
  product_a : ProductModel
  product_b : ProductModel
  comparison_matrix : List DimResult := []
  recommendation : String := ""
  generated_at : Nat := 0
  deriving DecidableEq

/-- `src/orchestration/state.py` `SystemState`: the shared workflow state.
`total=False` makes every field optional; the list fields are read through
`.get(..., [])`, so an absent list is the empty list. -/
structure SystemState where
  raw_data : Option (List (String × String)) := none
  product : Option ProductModel := none
  questions : Option (List QuestionModel) := none
  faq_page : Option FAQPageModel := none
  product_page : Option ProductPageModel := none
  comparison_page : Option ComparisonPageModel := none
  errors : List String := []
  execution_log : List String := []
  deriving DecidableEq

/-- `should_continue_after_questions` of `src/orchestration/graph.py`:
`"error"` when the error list is non-empty or no `questions` field was
produced, else `"continue"`. (The source also appends a message to the
error list in the no-questions branch; that router-local write is dropped
by the external graph engine, whose halt semantics the spec fixes as
"return state as-is", so only the decision is modelled.) -/
def should_continue_after_questions (state : SystemState) : String :=
  if 0 < state.errors.length then "error"
  else if state.questions = none then "error"
  else "continue"

/-- The workflow of `create_workflow_graph` (`src/orchestration/graph.py`):
parse → questions → gate; on `"continue"` the FAQ, product-page and
comparison steps run in sequence; on `"error"` the run halts with the
post-questions state. The five step bodies are parameters (they wrap LLM
calls); the sequential invoke semantics of the external graph engine is
modelled from the spec. -/
def run_workflow
    (parse_data generate_questions generate_faq generate_product_page
      generate_comparison : SystemState → SystemState)
    (s0 : SystemState) : SystemState :=
  let s1 := parse_data s0
  let s2 := generate_questions s1
  if should_continue_after_questions s2 = "continue" then
    generate_comparison (generate_product_page (generate_faq s2))
  else s2

/-- Raw, unvalidated product input: the argument of
`ProductModel.model_validate`. -/
structure RawProduct where
  name : String
  concentration : String
  skin_types : List String
  ingredients : List String
  benefits : List String
  usage : String
  side_effects : String
  price : ℚ
  deriving DecidableEq

/-- `validate_non_empty_list` of `product.py`: reject `[]`. -/
def validate_non_empty_list (v : List String) : Except String (List String) :=
  if v.isEmpty then .error "List cannot be empty" else .ok v

/-- `validate_non_empty_string` of `product.py`: reject empty or
whitespace-only strings, return the stripped value. -/
def validate_non_empty_string (v : String) : Except String String :=
  if v = "" || pyStrip v = "" then .error "String cannot be empty" else .ok (pyStrip v)

/-- The per-field validation errors pydantic collects for `ProductModel`,
in field declaration order (name, concentration, skin_types, ingredients,
benefits, usage, side_effects, price); `price` carries `gt=0`. -/
def fieldErrors (r : RawProduct) : List String :=
  (match validate_non_empty_string r.name with
    | .error e => ["name: " ++ e] | .ok _ => []) ++
  (match validate_non_empty_string r.concentration with
    | .error e => ["concentration: " ++ e] | .ok _ => []) ++
  (match validate_non_empty_list r.skin_types with
    | .error e => ["skin_types: " ++ e] | .ok _ => []) ++
  (match validate_non_empty_list r.ingredients with
    | .error e => ["ingredients: " ++ e] | .ok _ => []) ++
  (match validate_non_empty_list r.benefits with
    | .error e => ["benefits: " ++ e] | .ok _ => []) ++
  (match validate_non_empty_string r.usage with
    | .error e => ["usage: " ++ e] | .ok _ => []) ++
  (match validate_non_empty_string r.side_effects with
    | .error e => ["side_effects: " ++ e] | .ok _ => []) ++
  (if 0 < r.price then [] else ["price: Input should be greater than 0"])

/-- Constructing a `ProductModel` (pydantic validation): fails with the
collected field errors when any validator rejects; otherwise the four
string fields are stored stripped and the lists and price unchanged. -/
def ProductModel.model_validate (r : RawProduct) : Except (List String) ProductModel :=
  if fieldErrors r = [] then
    .ok { name := pyStrip r.name
          concentration := pyStrip r.concentration
          skin_types := r.skin_types
          ingredients := r.ingredients
          benefits := r.benefits
          usage := pyStrip r.usage
          side_effects := pyStrip r.side_effects
          price := r.price }
  else .error (fieldErrors r)

/-- `_generate_fallback_answer` of `src/agents/faq_generator.py`: a
deterministic category-keyed answer built from the product record. -/
def generate_fallback_answer (product : ProductModel) (question : QuestionModel) : String :=
  let category := pyLower question.category
  if pyIn "usage" category then
    "This product should be used as follows: " ++ product.usage ++
      ". Apply consistently for best results."
  else if pyIn "safety" category then
    "Safety information: " ++ product.side_effects ++
      ". Always perform a patch test before full application."
  else if pyIn "ingredient" category then
    "This product contains: " ++ String.intercalate ", " product.ingredients ++
      ". Each ingredient has been selected for its benefits."
  else if pyIn "price" category || pyIn "purchase" category then
    "This product is priced at ₹" ++ ratStr product.price ++
      ", offering excellent value for its formulation."
  else if pyIn "benefit" category then
    "The key benefits of this product include: " ++
      String.intercalate ", " product.benefits ++ ". Results vary by individual."
  else
    product.name ++ " is designed for " ++ String.intercalate ", " product.skin_types ++
      " skin types. Please review the product information for more details."

/-- `_generate_answers` of `faq_generator.py`. The outcome of
`llm.invoke(prompt)` — an external collaborator — is the `llmResponse`
parameter. On success the reply text is bound and then discarded; the
answers are built from `generate_fallback_answer`, exactly as in the
exception branch. -/
def generate_answers (llmResponse : Except String String) (product : ProductModel)
    (questions : List QuestionModel) : List QuestionAnswerModel :=
  match llmResponse with
  | .ok _content =>
    questions.map fun q =>
      { question := q.question
        answer := generate_fallback_answer product q
        category := q.category }
  | .error _ =>
    questions.map fun q =>
      { question := q.question
        answer := generate_fallback_answer product q
        category := q.category }

/-- Concrete record: a product priced at ₹500 (cheaper side of the C1
failing pair). -/
def productA500 : ProductModel :=
  { name := "Serum A", concentration := "5% Niacinamide", skin_types := ["Oily"]
    ingredients := ["Niacinamide"], benefits := ["Smoothing"], usage := "Apply daily"
    side_effects := "None reported", price := 500 }

/-- Concrete record: a product priced at ₹700 (costlier side of the C1
failing pair). -/
def productB700 : ProductModel :=
  { name := "Serum B", concentration := "8% Niacinamide", skin_types := ["Dry"]
    ingredients := ["Niacinamide"], benefits := ["Hydration"], usage := "Apply daily"
    side_effects := "None reported", price := 700 }

/-- Concrete record whose side-effect text is "Mild tingling" (C4's
example product A). -/
def mildTinglingProduct : ProductModel :=
  { productA500 with side_effects := "Mild tingling" }

/-- Concrete record whose side-effect text is "Moderate redness" (C4's
example product B). -/
def moderateRednessProduct : ProductModel :=
  { productB700 with side_effects := "Moderate redness" }

/-- The end-to-end scenario input of C8: price 699, concentration
"10% Vitamin C", ingredients with "Vitamin C". -/
def exampleProduct : ProductModel :=
  { name := "GlowBoost Vitamin C Serum", concentration := "10% Vitamin C"
    skin_types := ["Oily", "Combination"]
    ingredients := ["Vitamin C", "Hyaluronic Acid"]
    benefits := ["Brightening", "Fades dark spots"]
    usage := "Apply 2-3 drops in the morning before sunscreen"
    side_effects := "Mild tingling for sensitive skin", price := 699 }

/-- A two-entry block registry for concrete template-engine runs:
`"boom"` always raises, `"calm"` always succeeds with content `7`. -/
def demoRegistry : String → Option (ProductModel → Except String Nat)
  | "boom" => some fun _ => .error "boom failed"
  | "calm" => some fun _ => .ok 7
  | _ => none

/-- A section whose one required block name is absent from every registry
(the C6 counterexample input). -/
def ghostSection : TemplateSection :=
  { section_name := "ghost section", required_blocks := ["ghost"] }

/-- A section with one registered required block (C6 witness input). -/
def calmSection : TemplateSection :=
  { section_name := "calm section", required_blocks := ["calm"] }

theorem pyTrunc_neg (q : ℚ) : pyTrunc (-q) = -pyTrunc q := by
  unfold pyTrunc
  rcases lt_trichotomy q 0 with h | h | h
  · rw [if_neg (by linarith), if_pos h, Int.floor_neg]
  · subst h
    simp
  · rw [if_pos (by linarith), if_neg (by linarith), Int.ceil_neg]

theorem compare_price_winner (a b : ProductModel) :
    (compare_price a b).winner =
      (if |a.price - b.price| < 100 then "tie"
       else if a.price - b.price < 0 then "product_b" else "product_a") := by
  simp only [compare_price]
  split_ifs <;> rfl

theorem compare_price_verdict (a b : ProductModel) :
    (compare_price a b).verdict =
      (if |a.price - b.price| < 100 then "Similarly priced"
       else if a.price - b.price < 0 then
         "₹" ++ toString (reportedAbsDiff a b) ++ " cheaper"
       else "₹" ++ toString (pyTrunc (a.price - b.price)) ++ " more affordable") := by
  simp only [compare_price]
  split_ifs <;> rfl

/-- C1: the spec says the cheaper product's tag wins the price dimension;
the code names the costlier product. At prices 500 vs 700 (difference 200,
beyond the ₹100 tie band) product A is strictly cheaper, yet the winner
tag is `product_b` — and the verdict attached to that winner reads
"₹200 cheaper" although product B costs ₹200 more, so the code also
contradicts its own verdict string. -/
theorem C1_price_winner_names_costlier_product :
    productA500.price < productB700.price ∧
    100 ≤ |productA500.price - productB700.price| ∧
    (compare_price productA500 productB700).winner = "product_b" ∧
    (compare_price productA500 productB700).verdict = "₹200 cheaper" := by
  have hlt : productA500.price < productB700.price := by
    simp only [productA500, productB700]
    norm_num
  have habs : (100 : ℚ) ≤ |productA500.price - productB700.price| := by
    simp only [productA500, productB700]
    rw [show (500 : ℚ) - 700 = -200 by norm_num]
    rw [abs_neg, abs_of_nonneg (by norm_num)]
    norm_num
  have hdiff : reportedAbsDiff productA500 productB700 = 200 := by
    unfold reportedAbsDiff pyTrunc
    simp only [productA500, productB700]
    rw [show (500 : ℚ) - 700 = -200 by norm_num]
    rw [if_pos (by norm_num)]
    rw [show (-200 : ℚ) = ((-200 : ℤ) : ℚ) by norm_num, Int.ceil_intCast]
    decide
  refine ⟨hlt, habs, ?_, ?_⟩
  · rw [compare_price_winner, if_neg (by rw [abs_sub_comm] at habs; linarith [abs_sub_comm productA500.price productB700.price]), if_pos (by linarith)]
  · rw [compare_price_verdict, if_neg (by linarith [habs]), if_pos (by linarith), hdiff]
    rfl

/-- C3: swapping the price comparison's arguments flips the winner tag
between `product_a` and `product_b`, preserves ties, and preserves the
magnitude of the reported rupee difference. -/
theorem C3_price_dimension_symmetry (a b : ProductModel) :
    ((compare_price a b).winner = "tie" ↔ (compare_price b a).winner = "tie") ∧
    ((compare_price a b).winner = "product_a" ↔ (compare_price b a).winner = "product_b") ∧
    ((compare_price a b).winner = "product_b" ↔ (compare_price b a).winner = "product_a") ∧
    reportedAbsDiff a b = reportedAbsDiff b a := by
  have hneg : b.price - a.price = -(a.price - b.price) := by ring
  have habs : |b.price - a.price| = |a.price - b.price| := by rw [hneg, abs_neg]
  have hw := compare_price_winner a b
  have hw' := compare_price_winner b a
  rw [hneg, abs_neg] at hw'
  have hrep : reportedAbsDiff a b = reportedAbsDiff b a := by
    unfold reportedAbsDiff
    rw [hneg, pyTrunc_neg, abs_neg]
  by_cases h1 : |a.price - b.price| < 100
  · rw [if_pos h1] at hw hw'
    rw [hw, hw']
    refine ⟨Iff.rfl, ?_, ?_, hrep⟩ <;> constructor <;> intro h <;> simp_all
  · rw [if_neg h1] at hw hw'
    by_cases h2 : a.price - b.price < 0
    · rw [if_pos h2] at hw
      rw [if_neg (show ¬(-(a.price - b.price) < 0) by linarith)] at hw'
      rw [hw, hw']
      refine ⟨?_, ?_, ?_, hrep⟩ <;> constructor <;> intro h <;> simp_all
    · have hpos : 0 < a.price - b.price := by
        rcases lt_or_eq_of_le (not_lt.mp h2) with h | h
        · exact h
        · exfalso
          apply h1
          rw [← h, abs_zero]
          norm_num
      rw [if_neg h2] at hw
      rw [if_pos (by linarith)] at hw'
      rw [hw, hw']
      refine ⟨?_, ?_, ?_, hrep⟩ <;> constructor <;> intro h <;> simp_all

theorem compare_safety_winner (a b : ProductModel) :
    (compare_safety a b).winner =
      (if pyIn "mild" (pyLower a.side_effects) && !pyIn "mild" (pyLower b.side_effects)
        then "product_a"
       else if pyIn "mild" (pyLower b.side_effects) && !pyIn "mild" (pyLower a.side_effects)
        then "product_b"
       else "tie") := by
  simp only [compare_safety]
  split_ifs <;> rfl

/-- C4: the safety dimension's winner is `product_a` exactly when A's
side-effect text contains "mild" (case-insensitively) and B's does not,
`product_b` in the mirrored case, `tie` exactly when the two containment
tests agree; and on "Mild tingling" vs "Moderate redness" the winner is
`product_a`. -/
theorem C4_safety_dimension (a b : ProductModel) :
    ((compare_safety a b).winner = "product_a" ↔
      (pyIn "mild" (pyLower a.side_effects) = true ∧
       pyIn "mild" (pyLower b.side_effects) = false)) ∧
    ((compare_safety a b).winner = "product_b" ↔
      (pyIn "mild" (pyLower b.side_effects) = true ∧
       pyIn "mild" (pyLower a.side_effects) = false)) ∧
    ((compare_safety a b).winner = "tie" ↔
      pyIn "mild" (pyLower a.side_effects) = pyIn "mild" (pyLower b.side_effects)) ∧
    (compare_safety mildTinglingProduct moderateRednessProduct).winner = "product_a" := by
  have hw := compare_safety_winner a b
  refine ⟨?_, ?_, ?_, ?_⟩
  · cases ha : pyIn "mild" (pyLower a.side_effects) <;>
      cases hb : pyIn "mild" (pyLower b.side_effects) <;>
      rw [ha, hb] at hw <;> simp_all
  · cases ha : pyIn "mild" (pyLower a.side_effects) <;>
      cases hb : pyIn "mild" (pyLower b.side_effects) <;>
      rw [ha, hb] at hw <;> simp_all
  · cases ha : pyIn "mild" (pyLower a.side_effects) <;>
      cases hb : pyIn "mild" (pyLower b.side_effects) <;>
      rw [ha, hb] at hw <;> simp_all
  · decide

/-- C10: the FAQ answering step's output is independent of the LLM reply:
whatever the outcome of the LLM call — success with any text, or an
exception — every produced answer is the deterministic category-based
fallback answer, so two runs with different replies agree. -/
theorem C10_faq_llm_independence (product : ProductModel)
    (questions : List QuestionModel) (r r' : Except String String) :
    generate_answers r product questions = generate_answers r' product questions ∧
    generate_answers r product questions =
      questions.map (fun q =>
        { question := q.question
          answer := generate_fallback_answer product q
          category := q.category }) := by
  cases r <;> cases r' <;> exact ⟨rfl, rfl⟩

/-- C2: the error gate is evaluated once, right after question generation.
If the post-questions state has a non-empty error list or no questions
field, the run halts with that state unchanged — the FAQ, product-page and
comparison step functions are never applied, so page fields absent there
stay absent in the final state. Otherwise the run continues through
generate-FAQ, then the product page and comparison steps. -/
theorem C2_error_gate_halts
    (parse q faq pp comp : SystemState → SystemState) (s0 : SystemState) :
    (((q (parse s0)).errors ≠ [] ∨ (q (parse s0)).questions = none) →
      run_workflow parse q faq pp comp s0 = q (parse s0) ∧
      ((q (parse s0)).faq_page = none →
        (run_workflow parse q faq pp comp s0).faq_page = none) ∧
      ((q (parse s0)).product_page = none →
        (run_workflow parse q faq pp comp s0).product_page = none) ∧
      ((q (parse s0)).comparison_page = none →
        (run_workflow parse q faq pp comp s0).comparison_page = none)) ∧
    (((q (parse s0)).errors = [] ∧ (q (parse s0)).questions ≠ none) →
      run_workflow parse q faq pp comp s0 = comp (pp (faq (q (parse s0))))) := by
  constructor
  · intro h
    have hg : ¬(should_continue_after_questions (q (parse s0)) = "continue") := by
      unfold should_continue_after_questions
      rcases h with h | h
      · rw [if_pos (List.length_pos.mpr h)]
        decide
      · by_cases he : 0 < (q (parse s0)).errors.length
        · rw [if_pos he]
          decide
        · rw [if_neg he, if_pos h]
          decide
    have hrw : run_workflow parse q faq pp comp s0 = q (parse s0) := by
      simp only [run_workflow]
      rw [if_neg hg]
    refine ⟨hrw, ?_, ?_, ?_⟩ <;> intro hf <;> rw [hrw] <;> exact hf
  · rintro ⟨h1, h2⟩
    have hg : should_continue_after_questions (q (parse s0)) = "continue" := by
      unfold should_continue_after_questions
      rw [if_neg (by rw [h1]; simp), if_neg h2]
    simp only [run_workflow]
    rw [if_pos hg]

theorem renderRequired_error_of_mem {α : Type}
    (registry : String → Option (ProductModel → Except String α)) (p : ProductModel) :
    ∀ (names : List String) (n : String) (f : ProductModel → Except String α) (e : String),
      n ∈ names → registry n = some f → f p = Except.error e →
      ∃ e', renderRequired registry names p = Except.error e'
  | [], n, _, _, hmem, _, _ => absurd hmem (List.not_mem_nil n)
  | m :: rest, n, f, e, hmem, hreg, herr => by
    unfold renderRequired
    split
    · rename_i hm
      rcases List.mem_cons.mp hmem with rfl | hmem'
      · rw [hreg] at hm
        exact Option.noConfusion hm
      · exact renderRequired_error_of_mem registry p rest n f e hmem' hreg herr
    · rename_i g hm
      split
      · rename_i e2 _
        exact ⟨e2, rfl⟩
      · rename_i c hg
        rcases List.mem_cons.mp hmem with rfl | hmem'
        · rw [hreg] at hm
          injection hm with hfg
          rw [← hfg, herr] at hg
          exact Except.noConfusion hg
        · obtain ⟨e', he'⟩ := renderRequired_error_of_mem registry p rest n f e hmem' hreg herr
          rw [he']
          exact ⟨e', rfl⟩

theorem renderRequired_ok_spec {α : Type}
    (registry : String → Option (ProductModel → Except String α)) (p : ProductModel) :
    ∀ (names : List String) (req : List (RenderedBlock α)),
      renderRequired registry names p = Except.ok req →
      (req.map (fun bl => bl.name) = names.filter (fun n => (registry n).isSome) ∧
       ∀ bl ∈ req, bl.required = true ∧
         ∃ f, registry bl.name = some f ∧ f p = Except.ok bl.content)
  | [], req, hok => by
    simp only [renderRequired, Except.ok.injEq] at hok
    subst hok
    simp
  | m :: rest, req, hok => by
    unfold renderRequired at hok
    split at hok
    · rename_i hm
      obtain ⟨hmap, hall⟩ := renderRequired_ok_spec registry p rest req hok
      refine ⟨?_, hall⟩
      rw [hmap, List.filter_cons, if_neg (by simp [hm])]
    · rename_i g hm
      split at hok
      · exact Except.noConfusion hok
      · rename_i c hg
        split at hok
        · exact Except.noConfusion hok
        · rename_i bs hrest
          injection hok with hok
          subst hok
          obtain ⟨hmap, hall⟩ := renderRequired_ok_spec registry p rest bs hrest
          constructor
          · rw [List.map_cons, hmap, List.filter_cons, if_pos (by simp [hm])]
          · intro bl hbl
            rcases List.mem_cons.mp hbl with rfl | hbl'
            · exact ⟨rfl, g, hm, hg⟩
            · exact hall bl hbl'

theorem renderOptional_mem_spec {α : Type}
    (registry : String → Option (ProductModel → Except String α)) (p : ProductModel) :
    ∀ (names : List String) (bl : RenderedBlock α),
      bl ∈ renderOptional registry names p →
      bl.required = false ∧ ∃ f, registry bl.name = some f ∧ f p = Except.ok bl.content
  | [], bl, hmem => absurd hmem (List.not_mem_nil bl)
  | m :: rest, bl, hmem => by
    unfold renderOptional at hmem
    split at hmem
    · exact renderOptional_mem_spec registry p rest bl hmem
    · rename_i g hm
      split at hmem
      · exact renderOptional_mem_spec registry p rest bl hmem
      · rename_i c hg
        rcases List.mem_cons.mp hmem with rfl | hmem'
        · exact ⟨rfl, g, hm, hg⟩
        · exact renderOptional_mem_spec registry p rest bl hmem'

/-- C5: in `render_section`, a raising invoked required block makes the
whole call raise; when the required pass succeeds the call returns a
section whatever the optional blocks do, every non-required entry of the
result comes from a successful invocation (failed optional blocks are
omitted), and a section with no required blocks and a single raising
optional block renders to a section with zero blocks. -/
theorem C5_template_engine_error_behaviour (α : Type)
    (registry : String → Option (ProductModel → Except String α))
    (s : TemplateSection) (p : ProductModel) :
    ((∃ n f e, n ∈ s.required_blocks ∧ registry n = some f ∧ f p = Except.error e) →
      ∃ e', render_section registry s p = Except.error e') ∧
    ((∃ req, renderRequired registry s.required_blocks p = Except.ok req) →
      ∃ sec, render_section registry s p = Except.ok sec) ∧
    (∀ bl sec, render_section registry s p = Except.ok sec → bl ∈ sec.blocks →
      bl.required = false →
      ∃ f, registry bl.name = some f ∧ f p = Except.ok bl.content) ∧
    (∀ n f e, s.required_blocks = [] → s.optional_blocks = [n] →
      registry n = some f → f p = Except.error e →
      render_section registry s p =
        Except.ok { section_name := s.section_name, blocks := [] }) := by
  refine ⟨?_, ?_, ?_, ?_⟩
  · rintro ⟨n, f, e, hmem, hreg, herr⟩
    obtain ⟨e', he'⟩ :=
      renderRequired_error_of_mem registry p s.required_blocks n f e hmem hreg herr
    unfold render_section
    rw [he']
    exact ⟨e', rfl⟩
  · rintro ⟨req, hreq⟩
    unfold render_section
    rw [hreq]
    exact ⟨_, rfl⟩
  · intro bl sec hsec hmem hreq0
    unfold render_section at hsec
    split at hsec
    · exact Except.noConfusion hsec
    · rename_i req hrr
      injection hsec with hsec
      subst hsec
      rcases List.mem_append.mp hmem with hml | hmr
      · obtain ⟨_, hall⟩ := renderRequired_ok_spec registry p s.required_blocks req hrr
        rcases hall bl hml with ⟨htrue, _⟩
        rw [htrue] at hreq0
        exact Bool.noConfusion hreq0
      · exact (renderOptional_mem_spec registry p s.optional_blocks bl hmr).2
  · intro n f e h1 h2 hreg herr
    unfold render_section
    rw [h1, h2]
    simp only [renderRequired, renderOptional, hreg, herr]
    rfl

/-- C6 counterexample: a section whose only required block name is not in
the registry renders to a section with zero blocks — the required block
name "ghost" is listed yet no `{name, content, required=true}` entry is
appended for it, contradicting "no required block is skipped". -/
theorem C6_counterexample_unregistered_required_skipped :
    "ghost" ∈ ghostSection.required_blocks ∧
    render_section demoRegistry ghostSection productA500 =
      Except.ok { section_name := "ghost section", blocks := [] } :=
  ⟨by decide, rfl⟩

/-- C6 (amended): `render_section` invokes every required block that is
registered, in listed order: the required entries of a successful render
are exactly the registered required names in order, each with
`required = true` and the content its block returned; required names
absent from the registry are silently skipped. -/
theorem C6_required_blocks_registered_and_ordered (α : Type)
    (registry : String → Option (ProductModel → Except String α))
    (s : TemplateSection) (p : ProductModel) (sec : RenderedSection α)
    (hsec : render_section registry s p = Except.ok sec) :
    (sec.blocks.filter (fun bl => bl.required)).map (fun bl => bl.name) =
      s.required_blocks.filter (fun n => (registry n).isSome) ∧
    ∀ bl ∈ sec.blocks, bl.required = true →
      ∃ f, registry bl.name = some f ∧ f p = Except.ok bl.content := by
  unfold render_section at hsec
  split at hsec
  · exact Except.noConfusion hsec
  · rename_i req hrr
    injection hsec with hsec
    subst hsec
    obtain ⟨hmap, hall⟩ := renderRequired_ok_spec registry p s.required_blocks req hrr
    have hreqf : req.filter (fun bl => bl.required) = req :=
      List.filter_eq_self.mpr (fun bl hbl => by rw [(hall bl hbl).1])
    have hoptf : (renderOptional registry s.optional_blocks p).filter
        (fun bl => bl.required) = [] := by
      rw [List.filter_eq_nil_iff]
      intro bl hbl
      rw [(renderOptional_mem_spec registry p s.optional_blocks bl hbl).1]
      simp
    constructor
    · rw [List.filter_append, hreqf, hoptf, List.append_nil, hmap]
    · intro bl hmem htrue
      rcases List.mem_append.mp hmem with hml | hmr
      · exact (hall bl hml).2
      · rcases renderOptional_mem_spec registry p s.optional_blocks bl hmr with ⟨hfalse, _⟩
        rw [htrue] at hfalse
        exact Bool.noConfusion hfalse

/-- C6 witness: with the demo registry and the section whose one required
block is the registered, succeeding "calm" block, the amended statement
holds at the concrete rendered result. -/
theorem C6_required_blocks_witness :
    ((((RenderedSection.mk "calm section" [RenderedBlock.mk "calm" 7 true]).blocks.filter
        (fun bl => bl.required)).map (fun bl => bl.name)) =
      calmSection.required_blocks.filter (fun n => (demoRegistry n).isSome)) ∧
    (∀ bl ∈ (RenderedSection.mk "calm section" [RenderedBlock.mk "calm" 7 true]).blocks,
      bl.required = true →
      ∃ f, demoRegistry bl.name = some f ∧ f productA500 = Except.ok bl.content) :=
  C6_required_blocks_registered_and_ordered Nat demoRegistry calmSection productA500
    (RenderedSection.mk "calm section" [RenderedBlock.mk "calm" 7 true]) rfl

/-- The closed set of winner tags (the `ComparisonDimensionResult`
invariant the aggregation relies on). -/
def validWinner (w : String) : Prop :=
  w = "product_a" ∨ w = "product_b" ∨ w = "tie" ∨ w = "contextual"

theorem compare_skin_types_winner (a b : ProductModel) :
    (compare_skin_types a b).winner =
      (if b.skin_types.dedup.length < a.skin_types.dedup.length then "product_a"
       else if a.skin_types.dedup.length < b.skin_types.dedup.length then "product_b"
       else "tie") := by
  simp only [compare_skin_types]
  split_ifs <;> rfl

theorem compare_benefits_winner (a b : ProductModel) :
    (compare_benefits a b).winner =
      (if b.benefits.length < a.benefits.length then "product_a"
       else if a.benefits.length < b.benefits.length then "product_b"
       else "tie") := by
  simp only [compare_benefits]
  split_ifs <;> rfl

theorem compare_price_winner_valid (a b : ProductModel) :
    validWinner (compare_price a b).winner := by
  rw [compare_price_winner]
  unfold validWinner
  split_ifs <;> simp

theorem compare_skin_types_winner_valid (a b : ProductModel) :
    validWinner (compare_skin_types a b).winner := by
  rw [compare_skin_types_winner]
  unfold validWinner
  split_ifs <;> simp

theorem compare_benefits_winner_valid (a b : ProductModel) :
    validWinner (compare_benefits a b).winner := by
  rw [compare_benefits_winner]
  unfold validWinner
  split_ifs <;> simp

theorem compare_safety_winner_valid (a b : ProductModel) :
    validWinner (compare_safety a b).winner := by
  rw [compare_safety_winner]
  unfold validWinner
  split_ifs <;> simp

theorem countP_winner_partition :
    ∀ (m : List DimResult),
      (∀ x ∈ m, validWinner x.winner) →
      m.countP (fun i => i.winner == "product_a") +
        m.countP (fun i => i.winner == "product_b") +
        m.countP (fun i => i.winner == "tie" || i.winner == "contextual") = m.length
  | [], _ => by simp
  | x :: rest, h => by
    have hx := h x (List.mem_cons_self x rest)
    have ih := countP_winner_partition rest (fun y hy => h y (List.mem_cons_of_mem x hy))
    simp only [List.countP_cons, List.length_cons]
    rcases hx with hw | hw | hw | hw <;> rw [hw] <;> simp <;> omega

/-- C7: over the six fixed dimensions, only rows tagged exactly
`product_a` / `product_b` are tallied to the respective win counts; `tie`
and `contextual` land in `ties`, so wins and ties partition the six
dimensions, the two win counts sum to at most `total_dimensions`, and they
can never both exceed `total_dimensions / 2`. -/
theorem C7_score_aggregation (a b : ProductModel) :
    ((generate_comparison_block a b).scores.total_dimensions = 6) ∧
    ((generate_comparison_block a b).scores.product_a_wins +
      (generate_comparison_block a b).scores.product_b_wins +
      (generate_comparison_block a b).scores.ties =
        (generate_comparison_block a b).scores.total_dimensions) ∧
    ((generate_comparison_block a b).scores.product_a_wins +
      (generate_comparison_block a b).scores.product_b_wins ≤
        (generate_comparison_block a b).scores.total_dimensions) ∧
    ¬((generate_comparison_block a b).scores.total_dimensions / 2 <
        (generate_comparison_block a b).scores.product_a_wins ∧
      (generate_comparison_block a b).scores.total_dimensions / 2 <
        (generate_comparison_block a b).scores.product_b_wins) := by
  have hmem : ∀ x ∈ [compare_price a b, compare_concentration a b, compare_skin_types a b,
      compare_ingredients a b, compare_benefits a b, compare_safety a b],
      validWinner x.winner := by
    intro x hx
    simp only [List.mem_cons, List.not_mem_nil, or_false] at hx
    rcases hx with rfl | rfl | rfl | rfl | rfl | rfl
    · exact compare_price_winner_valid a b
    · exact Or.inr (Or.inr (Or.inr rfl))
    · exact compare_skin_types_winner_valid a b
    · exact Or.inr (Or.inr (Or.inr rfl))
    · exact compare_benefits_winner_valid a b
    · exact compare_safety_winner_valid a b
  have hpart := countP_winner_partition _ hmem
  simp only [List.length_cons, List.length_nil] at hpart
  have h6 : (generate_comparison_block a b).scores.total_dimensions = 6 := rfl
  have hsum : (generate_comparison_block a b).scores.product_a_wins +
      (generate_comparison_block a b).scores.product_b_wins +
      (generate_comparison_block a b).scores.ties = 6 := hpart
  refine ⟨h6, ?_, ?_, ?_⟩ <;> omega

theorem validate_non_empty_string_eq (v : String) :
    validate_non_empty_string v =
      if pyStrip v = "" then Except.error "String cannot be empty"
      else Except.ok (pyStrip v) := by
  have hempty : v = "" → pyStrip v = "" := fun hv => by rw [hv]; rfl
  unfold validate_non_empty_string
  split_ifs with h1 h2 h2
  · rfl
  · exfalso
    simp only [Bool.or_eq_true, decide_eq_true_eq] at h1
    rcases h1 with h | h
    · exact h2 (hempty h)
    · exact h2 h
  · exfalso
    simp only [Bool.or_eq_true, decide_eq_true_eq] at h1
    exact h1 (Or.inr h2)
  · rfl

theorem string_segment_nil {v tag : String}
    (h : (match validate_non_empty_string v with
          | Except.error e => [tag ++ e]
          | Except.ok _ => []) = []) :
    pyStrip v ≠ "" := by
  rw [validate_non_empty_string_eq] at h
  by_cases hs : pyStrip v = ""
  · rw [if_pos hs] at h
    simp at h
  · exact hs

theorem fieldErrors_ne_nil_of_empty_list (r : RawProduct)
    (h : r.skin_types = [] ∨ r.ingredients = [] ∨ r.benefits = []) :
    fieldErrors r ≠ [] := by
  intro heq
  rcases h with h | h | h <;> simp [fieldErrors, validate_non_empty_list, h] at heq

/-- C9: constructing a `ProductModel` from input with an empty skin-type,
ingredient, or benefit list fails with a validation error; every accepted
record stores the four string fields stripped and non-empty, and its price
is positive. -/
theorem C9_product_validation (r : RawProduct) :
    ((r.skin_types = [] ∨ r.ingredients = [] ∨ r.benefits = []) →
      ∃ errs, ProductModel.model_validate r = Except.error errs) ∧
    (∀ p, ProductModel.model_validate r = Except.ok p →
      p.name = pyStrip r.name ∧ p.concentration = pyStrip r.concentration ∧
      p.usage = pyStrip r.usage ∧ p.side_effects = pyStrip r.side_effects ∧
      p.name ≠ "" ∧ p.concentration ≠ "" ∧ p.usage ≠ "" ∧ p.side_effects ≠ "" ∧
      0 < p.price) := by
  constructor
  · intro h
    refine ⟨fieldErrors r, ?_⟩
    unfold ProductModel.model_validate
    rw [if_neg (fieldErrors_ne_nil_of_empty_list r h)]
  · intro p hp
    unfold ProductModel.model_validate at hp
    split_ifs at hp with hnil
    · injection hp with hp
      subst hp
      have hname : pyStrip r.name ≠ "" := by
        intro hs
        unfold fieldErrors at hnil
        rw [validate_non_empty_string_eq r.name, if_pos hs] at hnil
        simp at hnil
      have hconc : pyStrip r.concentration ≠ "" := by
        intro hs
        unfold fieldErrors at hnil
        rw [validate_non_empty_string_eq r.concentration, if_pos hs] at hnil
        simp at hnil
      have husage : pyStrip r.usage ≠ "" := by
        intro hs
        unfold fieldErrors at hnil
        rw [validate_non_empty_string_eq r.usage, if_pos hs] at hnil
        simp at hnil
      have hside : pyStrip r.side_effects ≠ "" := by
        intro hs
        unfold fieldErrors at hnil
        rw [validate_non_empty_string_eq r.side_effects, if_pos hs] at hnil
        simp at hnil
      have hprice : 0 < r.price := by
        by_cases hq : 0 < r.price
        · exact hq
        · unfold fieldErrors at hnil
          rw [if_neg hq] at hnil
          simp at hnil
      exact ⟨rfl, rfl, rfl, rfl, hname, hconc, husage, hside, hprice⟩

theorem generate_price_block_positioning (p : ProductModel) (bottle : Nat) :
    (generate_price_block p bottle).positioning =
      (if p.price < 500 then "Budget-Friendly"
       else if p.price < 1000 then "Mid-Range"
       else if p.price < 2000 then "Premium" else "Luxury") := by
  simp only [generate_price_block]
  split_ifs <;> rfl

theorem exampleProduct_highlights_args :
    (generate_price_block exampleProduct).value_highlights =
      generate_value_highlights exampleProduct ((2.5 : ℚ) * 0.05 * (699 / 30))
        ((30 : ℚ) / (2.5 * 0.05) /
          (if pyIn "twice" (pyLower exampleProduct.usage) ||
              pyIn "morning and evening" (pyLower exampleProduct.usage) then 2 else 1)) := rfl

theorem exampleProduct_uses_per_day :
    (if pyIn "twice" (pyLower exampleProduct.usage) ||
        pyIn "morning and evening" (pyLower exampleProduct.usage) then (2:ℚ) else 1) = 1 := by
  decide

theorem exampleProduct_cost_per_use : (2.5 : ℚ) * 0.05 * (699 / 30) = 233/80 := by
  norm_num

theorem exampleProduct_days_supply : (30 : ℚ) / (2.5 * 0.05) / 1 = 240 := by
  norm_num

theorem pyTrunc_cost : pyTrunc ((233:ℚ)/80) = 2 := by
  unfold pyTrunc
  rw [if_neg (by norm_num)]
  norm_num [Int.floor_eq_iff]

theorem pyTrunc_months : pyTrunc ((240:ℚ)/30) = 8 := by
  unfold pyTrunc
  rw [if_neg (by norm_num)]
  norm_num [Int.floor_eq_iff]

theorem exampleProduct_value_highlights :
    (generate_price_block exampleProduct).value_highlights =
      ["Less than ₹3 per application",
       "Over 8 months supply with daily use",
       "Effective 10% Vitamin C formulation",
       "Contains premium, research-backed ingredients",
       "Delivers 2 benefits in one product"] := by
  rw [exampleProduct_highlights_args, exampleProduct_uses_per_day,
    exampleProduct_cost_per_use, exampleProduct_days_supply]
  unfold generate_value_highlights
  rw [if_pos (show ((233:ℚ)/80) < 5 by norm_num),
      if_pos (show (60:ℚ) ≤ 240 by norm_num),
      if_pos (show exampleProduct.concentration ≠ "" by decide),
      if_pos (show (["Vitamin C", "Hyaluronic Acid", "Retinol", "Niacinamide"].any
        (fun ing => exampleProduct.ingredients.contains ing)) = true by decide),
      if_pos (show 2 ≤ exampleProduct.benefits.length by decide),
      pyTrunc_cost, pyTrunc_months]
  rfl

/-- C8: the price block classifies price into exactly one of four tiers by
the fixed thresholds 500 / 1000 / 2000; at the end-to-end scenario input
(price 699, ingredients containing "Vitamin C") the positioning is
"Mid-Range" and the value highlights are non-empty and include the
premium-ingredient highlight. -/
theorem C8_price_positioning_and_highlights (p : ProductModel) :
    (p.price < 500 → (generate_price_block p).positioning = "Budget-Friendly") ∧
    (500 ≤ p.price → p.price < 1000 → (generate_price_block p).positioning = "Mid-Range") ∧
    (1000 ≤ p.price → p.price < 2000 → (generate_price_block p).positioning = "Premium") ∧
    (2000 ≤ p.price → (generate_price_block p).positioning = "Luxury") ∧
    ((generate_price_block exampleProduct).positioning = "Mid-Range" ∧
     (generate_price_block exampleProduct).value_highlights ≠ [] ∧
     "Contains premium, research-backed ingredients" ∈
       (generate_price_block exampleProduct).value_highlights) := by
  refine ⟨?_, ?_, ?_, ?_, ?_, ?_, ?_⟩
  · intro h
    rw [generate_price_block_positioning, if_pos h]
  · intro h1 h2
    rw [generate_price_block_positioning, if_neg (by linarith), if_pos h2]
  · intro h1 h2
    rw [generate_price_block_positioning, if_neg (by linarith), if_neg (by linarith),
      if_pos h2]
  · intro h
    rw [generate_price_block_positioning, if_neg (by linarith), if_neg (by linarith),
      if_neg (by linarith)]
  · rw [generate_price_block_positioning,
      if_neg (show ¬(exampleProduct.price < 500) by simp only [exampleProduct]; norm_num),
      if_pos (show exampleProduct.price < 1000 by simp only [exampleProduct]; norm_num)]
  · rw [exampleProduct_value_highlights]
    decide
  · rw [exampleProduct_value_highlights]
    decide
